import Mathlib

/-!
Shallow embedding of `src/network.cpp` from the Airheads Glider project:
a minimal ESP32 web server that registers four routes ("/", "/activate",
"/deactivate", "/calibrate") plus a not-found default, flips two shared
flags (`tc_state`, `web_calibrate`), and builds its HTML pages by string
concatenation.  HTTP delivery, WiFi setup and the FreeRTOS task loop are
external I/O; the embedded part is the pure request → (state, response)
behaviour of each handler and of the dispatch table.
-/

namespace AirheadsWeb

/-- An HTTP response as produced by `server.send (status, content_type, body)`. -/
structure Response where
  status : Nat
  contentType : String
  body : String
  deriving DecidableEq, Repr

/-- The cross-task shared store.  `tc_state` models the `Share` cell written by
`tc_state.put(...)` (declared in `shares.h`); `web_calibrate` models the
`Share<bool>` declared at network.cpp line 25.  A put is a record update and a
get is a field read, matching the spec contract that a get returns the last
value put. -/
structure SharedState where
  tc_state : Nat
  web_calibrate : Bool
  deriving DecidableEq, Repr

/-- Modelled from the spec: `tc_state` is declared in `shares.h`, which is not
part of this repository snapshot.  The spec calls the value written by
`/activate` (the literal 1 in `tc_state.put(1)`) "enabled". -/
def tc_enabled : Nat := 1

/-- Modelled from the spec: the value written by `/deactivate` and `/calibrate`
(the literal 0 in `tc_state.put(0)`), called "disabled" by the spec. -/
def tc_disabled : Nat := 0

/-- First raw string literal appended by `HTML_header` (network.cpp lines
107–113): doctype, metadata, and the opening `<title>` tag. -/
def html_header_top : String :=
  "\n        <!DOCTYPE html>\n        <html lang=\"en\">\n            <head>\n"
  ++ "                <meta charset=\"utf-8\">\n"
  ++ "                <meta name=\"viewport\" content=\"initial-scale=1, width=device-width\">\n"
  ++ "                <title>"

/-- Second raw string literal appended by `HTML_header` (network.cpp lines
115–125): closing `</title>` tag, embedded style, and `</head>`. -/
def html_header_bottom : String :=
  "\n                </title>\n                <style>\n"
  ++ "                    html \x7b font-family: Helvetica; display: inline-block; margin: 0px auto; text-align:center;\x7d\n"
  ++ "                    body \x7b margin-top: 50px;\x7d\n"
  ++ "                    h1 \x7b color: #4444AA; margin:50px auto 30px;\x7d\n"
  ++ "                    p \x7b font-size: 24px; color: #222222; margin-bottom:10px;\x7d\n"
  ++ "                    input \x7b width:250px;height:100px;font-size:20px;\x7d\n"
  ++ "                </style>\n            </head>\n            "

/-- `HTML_header (a_string, page_title)` (network.cpp lines 105–126) appends
the fixed prologue, then the title verbatim, then the fixed epilogue to the
caller's string. -/
def HTML_header (a_string : String) (page_title : String) : String :=
  a_string ++ html_header_top ++ page_title ++ html_header_bottom

/-- The raw string literal holding the control-panel body appended by
`handle_DocumentRoot` (network.cpp lines 142–192). -/
def document_root_body : String :=
  "\n        <body>\n            <main>\n                <div id=\"webpage\">\n"
  ++ "                    <h1>Main Page for ME507 Glider Project</h1>\n"
  ++ "                    <h2>Control Panel</h2>\n"
  ++ "                    <table>\n                        <tr>\n"
  ++ "                            <form action=\"/activate\">\n"
  ++ "                                <input type=\"submit\" value=\"Activate Flight Control\">\n"
  ++ "                            </form>\n"
  ++ "                            <form action=\"/deactivate\">\n"
  ++ "                                <input type=\"submit\" value=\"Deactivate Flight Control\">\n"
  ++ "                            </form>\n"
  ++ "                            <form action=\"/calibrate\">\n"
  ++ "                                <input type=\"submit\" value=\"Calibrate/Zero\">\n"
  ++ "                            </form>\n"
  ++ "                        </tr>\n                    </table>\n"
  ++ "                    <h2>\n                        Manual Control\n                    </h2>\n"
  ++ "                    <form action=\"/set_rudder\">\n"
  ++ "                        <input type=\"text\" style=\"width:150px;height:50px;font-size:20px;\">\n"
  ++ "                        <input type=\"submit\" value=\"Set Rudder (-90, 90)\" style=\"width:250x;height:50px;font-size:20px;\">\n"
  ++ "                    </form>\n                    <br>\n"
  ++ "                    <form action=\"/set_elevator\">\n"
  ++ "                        <input type=\"text\" style=\"width:150px;height:50px;font-size:20px;\">\n"
  ++ "                        <input type=\"submit\" value=\"Set Elevator (-90, 90)\" style=\"width:250x;height:50px;font-size:20px;\">\n"
  ++ "                    </form>\n                    <br>\n"
  ++ "                    <form>\n"
  ++ "                        <input type=\"text\" style=\"width:150px;height:50px;font-size:20px;\">\n"
  ++ "                        <input type=\"submit\" value=\"Set Rudder Gain\" style=\"width:250x;height:50px;font-size:20px;\">\n"
  ++ "                    </form>\n                    <br>\n"
  ++ "                    <form>\n"
  ++ "                        <input type=\"text\" style=\"width:150px;height:50px;font-size:20px;\">\n"
  ++ "                        <input type=\"submit\" value=\"Set Elevator Gain\" style=\"width:250x;height:50px;font-size:20px;\">\n"
  ++ "                    </form>\n                    <br>\n"
  ++ "                    <form>\n"
  ++ "                        <input type=\"submit\" value=\"Reset Default Gain\" style=\"width:250x;height:50px;font-size:20px;\">\n"
  ++ "                    </form>\n\n"
  ++ "                </div>\n            </main>\n        </body>\n    </html>\n    "

/-- `handle_DocumentRoot` (network.cpp lines 136–195): builds the root control
page (header with fixed title, then the control-panel body) and sends it with
status 200 and content type text/html.  The `Serial` log line is I/O and is
not part of the response.  No shared flag is read or written. -/
def handle_DocumentRoot (s : SharedState) : SharedState × Response :=
  let a_str := HTML_header "" "ESP32 Web Server Test - Airheads"
  let a_str := a_str ++ document_root_body
  (s, ⟨200, "text/html", a_str⟩)

/-- `handle_NotFound` (network.cpp lines 201–204): fixed 404 plain-text
response, no state change. -/
def handle_NotFound (s : SharedState) : SharedState × Response :=
  (s, ⟨404, "text/plain", "Not found"⟩)

/-- The transient page built identically by the three state-mutating handlers:
a document whose meta refresh tag sends the browser back to "/" after a
1-second delay. -/
def toggle_page : String :=
  "<!DOCTYPE html> <html> <head>\n"
  ++ "<meta http-equiv=\"refresh\" content=\"1; url=\x27/\x27\" />\n"
  ++ "</head> <body> <p> <a href=\x27/\x27>Back to main page</a></p>"
  ++ "</body> </html>"

/-- `handle_Activate` (network.cpp lines 212–222): `tc_state.put(1)`, then send
the redirect page with status 200, text/html. -/
def handle_Activate (s : SharedState) : SharedState × Response :=
  let s := { s with tc_state := 1 }
  let page := "<!DOCTYPE html> <html> <head>\n"
  let page := page ++ "<meta http-equiv=\"refresh\" content=\"1; url=\x27/\x27\" />\n"
  let page := page ++ "</head> <body> <p> <a href=\x27/\x27>Back to main page</a></p>"
  let page := page ++ "</body> </html>"
  (s, ⟨200, "text/html", page⟩)

/-- `handle_Deactivate` (network.cpp lines 230–240): `tc_state.put(0)`, then
send the redirect page with status 200, text/html. -/
def handle_Deactivate (s : SharedState) : SharedState × Response :=
  let s := { s with tc_state := 0 }
  let page := "<!DOCTYPE html> <html> <head>\n"
  let page := page ++ "<meta http-equiv=\"refresh\" content=\"1; url=\x27/\x27\" />\n"
  let page := page ++ "</head> <body> <p> <a href=\x27/\x27>Back to main page</a></p>"
  let page := page ++ "</body> </html>"
  (s, ⟨200, "text/html", page⟩)

/-- `handle_Calibrate` (network.cpp lines 248–259): `web_calibrate.put(1)` and
`tc_state.put(0)`, then send the redirect page with status 200, text/html. -/
def handle_Calibrate (s : SharedState) : SharedState × Response :=
  let s := { s with web_calibrate := true }
  let s := { s with tc_state := 0 }
  let page := "<!DOCTYPE html> <html> <head>\n"
  let page := page ++ "<meta http-equiv=\"refresh\" content=\"1; url=\x27/\x27\" />\n"
  let page := page ++ "</head> <body> <p> <a href=\x27/\x27>Back to main page</a></p>"
  let page := page ++ "</body> </html>"
  (s, ⟨200, "text/html", page⟩)

/-- `handle_Set_Rudder` (network.cpp lines 266–284): builds a CSV string with
header line "Time, Jumpiness" and one row per index 0–19, then sends it with
status 404 and content type text/plain.  The C++ value column
`String (sin (index / 5.4321), 3)` formats a double-precision sine to three
decimals; floating point is not shallowly embedded, so the formatted value is
abstracted as the parameter `sin3` applied to the index. -/
def handle_Set_Rudder (sin3 : Nat → String) (s : SharedState) : SharedState × Response :=
  let csv_str := "Time, Jumpiness\n"
  let csv_str := (List.range 20).foldl
    (fun csv index => csv ++ toString index ++ "," ++ sin3 index ++ "\n") csv_str
  (s, ⟨404, "text/plain", csv_str⟩)

/-- `handle_Set_Elevator` (network.cpp lines 291–309): textually identical body
to `handle_Set_Rudder`, embedded separately because the source defines two
separate functions. -/
def handle_Set_Elevator (sin3 : Nat → String) (s : SharedState) : SharedState × Response :=
  let csv_str := "Time, Jumpiness\n"
  let csv_str := (List.range 20).foldl
    (fun csv index => csv ++ toString index ++ "," ++ sin3 index ++ "\n") csv_str
  (s, ⟨404, "text/plain", csv_str⟩)

/-- The route table registered once at startup by `task_webserver`
(network.cpp lines 324–327): the four `server.on` calls, in order. -/
def routes : List (String × (SharedState → SharedState × Response)) :=
  [("/", handle_DocumentRoot),
   ("/activate", handle_Activate),
   ("/deactivate", handle_Deactivate),
   ("/calibrate", handle_Calibrate)]

/-- Request dispatch: look the path up in the route table; on a miss fall back
to the `server.onNotFound` handler `handle_NotFound` (network.cpp line 328). -/
def dispatch (reqPath : String) (s : SharedState) : SharedState × Response :=
  match routes.find? (fun r => r.1 == reqPath) with
  | some r => r.2 s
  | none => handle_NotFound s

/-- Helper: an unregistered path misses every entry of the route table. -/
theorem find_routes_none_of_not_mem (reqPath : String)
    (h : reqPath ∉ ["/", "/activate", "/deactivate", "/calibrate"]) :
    routes.find? (fun r => r.1 == reqPath) = none := by
  simp only [List.mem_cons, List.not_mem_nil, or_false, not_or] at h
  obtain ⟨h1, h2, h3, h4⟩ := h
  have e1 : (("/" : String) == reqPath) = false := beq_eq_false_iff_ne.mpr (Ne.symm h1)
  have e2 : (("/activate" : String) == reqPath) = false := beq_eq_false_iff_ne.mpr (Ne.symm h2)
  have e3 : (("/deactivate" : String) == reqPath) = false := beq_eq_false_iff_ne.mpr (Ne.symm h3)
  have e4 : (("/calibrate" : String) == reqPath) = false := beq_eq_false_iff_ne.mpr (Ne.symm h4)
  simp [routes, List.find?, e1, e2, e3, e4]

/-- C1: for every request whose path is not in the registered set
{"/", "/activate", "/deactivate", "/calibrate"}, `dispatch` returns a
response with status 404, content-type text/plain, and body exactly
"Not found". -/
theorem dispatch_unregistered_is_not_found (reqPath : String) (s : SharedState)
    (h : reqPath ∉ ["/", "/activate", "/deactivate", "/calibrate"]) :
    (dispatch reqPath s).2 = ⟨404, "text/plain", "Not found"⟩ := by
  simp [dispatch, find_routes_none_of_not_mem reqPath h, handle_NotFound]

/-- Witness for C1 at the concrete unregistered path "/toggle". -/
theorem dispatch_unregistered_is_not_found_witness :
    (dispatch "/toggle" ⟨1, true⟩).2 = ⟨404, "text/plain", "Not found"⟩ :=
  dispatch_unregistered_is_not_found "/toggle" ⟨1, true⟩ (by decide)

/-- C2: for every prior state of the shared store, after dispatch of
"/activate" the flight-control flag reads enabled; after dispatch of
"/deactivate" or "/calibrate" it reads disabled. -/
theorem dispatch_sets_flight_control_flag (s : SharedState) :
    ((dispatch "/activate" s).1).tc_state = tc_enabled
    ∧ ((dispatch "/deactivate" s).1).tc_state = tc_disabled
    ∧ ((dispatch "/calibrate" s).1).tc_state = tc_disabled :=
  ⟨rfl, rfl, rfl⟩

/-- C3: for every prior state of the shared store, after dispatch of
"/calibrate" the calibrate-requested flag reads true. -/
theorem dispatch_calibrate_sets_web_calibrate (s : SharedState) :
    ((dispatch "/calibrate" s).1).web_calibrate = true :=
  rfl

/-- C4: for every initial state, dispatching "/activate" and then
"/calibrate" leaves the flight-control flag disabled: the calibrate
handler's later write wins over the activate handler's write. -/
theorem dispatch_activate_then_calibrate_disabled (s : SharedState) :
    ((dispatch "/calibrate" ((dispatch "/activate" s).1)).1).tc_state = tc_disabled :=
  rfl

/-- C5: each state-mutating route ("/activate", "/deactivate", "/calibrate")
returns status 200 with content-type text/html and the redirect-page body,
and that body carries the meta refresh tag that navigates back to "/" after
a fixed 1-second delay. -/
theorem dispatch_mutating_routes_redirect (s : SharedState) :
    (dispatch "/activate" s).2 = ⟨200, "text/html", toggle_page⟩
    ∧ (dispatch "/deactivate" s).2 = ⟨200, "text/html", toggle_page⟩
    ∧ (dispatch "/calibrate" s).2 = ⟨200, "text/html", toggle_page⟩
    ∧ ∃ a b, toggle_page
        = a ++ "<meta http-equiv=\"refresh\" content=\"1; url=\x27/\x27\" />\n" ++ b :=
  ⟨rfl, rfl, rfl,
    "<!DOCTYPE html> <html> <head>\n",
    "</head> <body> <p> <a href=\x27/\x27>Back to main page</a></p></body> </html>",
    rfl⟩

/-- C6: rendering the root control page is deterministic: any two calls,
whatever the (unread) shared state at each call, produce byte-identical
responses, so in particular repeated calls with no intervening state change
produce byte-identical HTML output. -/
theorem handle_DocumentRoot_deterministic (s₁ s₂ : SharedState) :
    (handle_DocumentRoot s₁).2 = (handle_DocumentRoot s₂).2 :=
  rfl

/-- C7: for every title string, `HTML_header` splices the title literally —
character for character, with no escaping — between a fixed fragment ending
in the opening `<title>` tag and a fixed fragment beginning with the closing
`</title>` tag. -/
theorem HTML_header_title_literal (a_string page_title : String) :
    HTML_header a_string page_title
      = a_string ++ html_header_top ++ page_title ++ html_header_bottom
    ∧ (∃ u, html_header_top = u ++ "<title>")
    ∧ (∃ v, html_header_bottom = "\n                </title>" ++ v) := by
  refine ⟨rfl, ⟨?_, ?_⟩, ⟨?_, ?_⟩⟩
  · exact "\n        <!DOCTYPE html>\n        <html lang=\"en\">\n            <head>\n"
      ++ "                <meta charset=\"utf-8\">\n"
      ++ "                <meta name=\"viewport\" content=\"initial-scale=1, width=device-width\">\n"
      ++ "                "
  · rfl
  · exact "\n                <style>\n"
      ++ "                    html \x7b font-family: Helvetica; display: inline-block; margin: 0px auto; text-align:center;\x7d\n"
      ++ "                    body \x7b margin-top: 50px;\x7d\n"
      ++ "                    h1 \x7b color: #4444AA; margin:50px auto 30px;\x7d\n"
      ++ "                    p \x7b font-size: 24px; color: #222222; margin-bottom:10px;\x7d\n"
      ++ "                    input \x7b width:250px;height:100px;font-size:20px;\x7d\n"
      ++ "                </style>\n            </head>\n            "
  · rfl

/-- C8: the route table registers exactly the four paths "/", "/activate",
"/deactivate", "/calibrate", each at most once; the CSV handlers' paths
"/set_rudder" and "/set_elevator" are not registered, and dispatching them
falls through to the not-found default. -/
theorem routes_registered_paths :
    routes.map Prod.fst = ["/", "/activate", "/deactivate", "/calibrate"]
    ∧ (routes.map Prod.fst).Nodup
    ∧ "/set_rudder" ∉ routes.map Prod.fst
    ∧ "/set_elevator" ∉ routes.map Prod.fst
    ∧ ∀ s : SharedState,
        dispatch "/set_rudder" s = handle_NotFound s
        ∧ dispatch "/set_elevator" s = handle_NotFound s :=
  ⟨rfl, by decide, by decide, by decide, fun _ => ⟨rfl, rfl⟩⟩

/-- C9: dispatching the root path "/" or any unmatched path leaves the shared
state unchanged: neither flag is written by those dispatches, for every prior
flag state. -/
theorem dispatch_root_and_unmatched_frame (reqPath : String) (s : SharedState) :
    (dispatch "/" s).1 = s
    ∧ (reqPath ∉ ["/", "/activate", "/deactivate", "/calibrate"] →
        (dispatch reqPath s).1 = s) := by
  refine ⟨rfl, fun h => ?_⟩
  simp [dispatch, find_routes_none_of_not_mem reqPath h, handle_NotFound]

/-- Witness for C9 at the root path and the concrete unmatched path "/gains",
from prior state (tc_state = 7, web_calibrate = false). -/
theorem dispatch_root_and_unmatched_frame_witness :
    (dispatch "/" ⟨7, false⟩).1 = (⟨7, false⟩ : SharedState)
    ∧ (dispatch "/gains" ⟨7, false⟩).1 = (⟨7, false⟩ : SharedState) :=
  ⟨(dispatch_root_and_unmatched_frame "/gains" ⟨7, false⟩).1,
   (dispatch_root_and_unmatched_frame "/gains" ⟨7, false⟩).2 (by decide)⟩

/-- Helper: the CSV accumulation loop equals the initial string followed by
the concatenation of the per-index rows. -/
theorem csv_foldl_eq_join (sin3 : Nat → String) (l : List Nat) (init : String) :
    l.foldl (fun csv index => csv ++ toString index ++ "," ++ sin3 index ++ "\n") init
      = init ++ String.join (l.map (fun index => toString index ++ "," ++ sin3 index ++ "\n")) := by
  induction l generalizing init with
  | nil =>
      apply String.ext
      simp [String.join]
  | cons a t ih =>
      simp only [List.foldl_cons, List.map_cons, ih]
      apply String.ext
      simp [List.append_assoc]

/-- C10: the two unregistered CSV handlers send the CSV payload — header line
"Time, Jumpiness" followed by one row per index 0–19 — with status 404 and
content-type text/plain (not 200), and the two handlers produce identical
responses for every formatted-sine function and prior state. -/
theorem set_rudder_set_elevator_csv (sin3 : Nat → String) (s : SharedState) :
    handle_Set_Rudder sin3 s = handle_Set_Elevator sin3 s
    ∧ (handle_Set_Rudder sin3 s).2.status = 404
    ∧ (handle_Set_Rudder sin3 s).2.contentType = "text/plain"
    ∧ (handle_Set_Rudder sin3 s).2.body
        = "Time, Jumpiness\n"
          ++ String.join ((List.range 20).map
              (fun index => toString index ++ "," ++ sin3 index ++ "\n")) := by
  refine ⟨rfl, rfl, rfl, ?_⟩
  exact csv_foldl_eq_join sin3 (List.range 20) "Time, Jumpiness\n"

end AirheadsWeb
